import Mathlib

/-!
Shallow embedding of `octoprint_prusammu/__init__.py` (OctoPrint-PrusaMMU).

The plugin's mutable instance fields become an explicit `PluginState`; every
side-effecting collaborator call (`self._printer.commands`,
`self._plugin_manager.send_plugin_message`, `self._printer.set_job_on_hold`,
`self._settings.set/save`) becomes an element appended to an effect list, in
the order the Python statements execute.  Python's dynamically typed
`self.mmuTool` field (initialised to `""`, assigned an `int` by
`on_api_command` and a `str` by `gcode_queuing_hook`) is modelled by the sum
type `PyVal`.  OctoPrint's queuing-hook return conventions are modelled by
`GateResult`: returning `None` (or falling off the function) leaves the
command unchanged, returning `[(cmd,), (tool_cmd,)]` rewrites it, and
returning `None,` — the tuple `(None,)` — suppresses it.  The `TypeError`
raised by `TIMEOUT_TAG in tags` when `tags is None` is modelled by `Except`.
-/

/-- A Python value held by the dynamically typed `mmuTool` field:
either a string (initially `""`, later e.g. `"T1"`) or an int. -/
inductive PyVal
  | pyStr (s : String)
  | pyInt (n : Int)
deriving DecidableEq, Repr

/-- A UI message sent through `self._plugin_manager.send_plugin_message`:
`dict(action="show")`, `dict(action="close")`, or
`dict(action="nav", tool=…, state=…)`. -/
inductive Msg
  | show
  | close
  | nav (tool : PyVal) (state : String)
deriving DecidableEq, Repr

/-- One side-effecting collaborator call made by the plugin. -/
inductive Effect
  | sendCommand (cmd : String) (tags : List String)
  | pluginMessage (m : Msg)
  | setJobOnHold (b : Bool)
  | settingsSet (key : String) (value : PyVal)
  | settingsSave
deriving DecidableEq, Repr

/-- The mutable instance fields of `PrusaMMUPlugin` used by the core
state machine.  `timerArmed` models whether the `threading.Timer` stored
in `self._timer` is armed (started and not yet cancelled or fired). -/
structure PluginState where
  active : Bool
  selectedFilament : Option String
  filamentChangeTriggered : Bool
  timerArmed : Bool
  mmuState : String
  mmuTool : PyVal
deriving DecidableEq, Repr

/-- The field values established by `__init__`. -/
def initialState : PluginState :=
  { active := false
    selectedFilament := none
    filamentChangeTriggered := false
    timerArmed := false
    mmuState := "OK"
    mmuTool := PyVal.pyStr "" }

def TAG_PREFIX : String := "prusaMMUPlugin:"

def TIMEOUT_TAG : String := TAG_PREFIX ++ "timeout"

/-- Helper: `isPrefixChars p l` decides whether `p` is a prefix of `l`
(model of Python string prefix comparison, character by character). -/
def isPrefixChars : List Char → List Char → Bool
  | [], _ => true
  | _ :: _, [] => false
  | a :: as, b :: bs => a == b && isPrefixChars as bs

/-- Substring containment on character lists (model of Python `needle in line`). -/
def containsSub (needle : List Char) : List Char → Bool
  | [] => isPrefixChars needle []
  | h :: t => isPrefixChars needle (h :: t) || containsSub needle t

/-- Python `needle in haystack` on strings. -/
def strContains (needle haystack : String) : Bool :=
  containsSub needle.data haystack.data

/-- Python `cmd.startswith(pre)`. -/
def cmdStartsWith (cmd pre : String) : Bool :=
  isPrefixChars pre.data cmd.data

/-- Source `_show_prompt`: set `_active`, start the timer, send the "show" message. -/
def show_prompt (s : PluginState) : PluginState × List Effect :=
  ({ s with active := true, timerArmed := true },
   [Effect.pluginMessage Msg.show])

/-- Source `_clean_up_prompt`: cancel the timer, clear `_active`, send the
"close" message, release the job hold. -/
def clean_up_prompt (s : PluginState) : PluginState × List Effect :=
  ({ s with timerArmed := false, active := false },
   [Effect.pluginMessage Msg.close, Effect.setJobOnHold false])

/-- Source `_timeout_prompt`: send the synthetic `"Tx"` tagged with `TIMEOUT_TAG`,
then clean up the prompt. -/
def timeout_prompt (s : PluginState) : PluginState × List Effect :=
  let r := clean_up_prompt s
  (r.1, Effect.sendCommand "Tx" [TIMEOUT_TAG] :: r.2)

/-- Source `_done_prompt(command)`: record the selected filament command, set the
filament-change flag, then clean up the prompt. -/
def done_prompt (command : String) (s : PluginState) : PluginState × List Effect :=
  clean_up_prompt
    { s with selectedFilament := some command, filamentChangeTriggered := true }

/-- Source `_update_nav(state)`: no-op when the state is unchanged; otherwise store
it, persist `(mmuState, mmuTool)` (requests issued to the settings
collaborator; its failures are caught and swallowed in the source), and send
the "nav" message carrying the current tool and state. -/
def update_nav (state : String) (s : PluginState) : PluginState × List Effect :=
  if state = s.mmuState then (s, [])
  else
    let s1 := { s with mmuState := state }
    (s1,
     [Effect.settingsSet "mmuState" (PyVal.pyStr s1.mmuState),
      Effect.settingsSet "mmuTool" s1.mmuTool,
      Effect.settingsSave,
      Effect.pluginMessage (Msg.nav s1.mmuTool s1.mmuState)])

/-- The `data["choice"]` argument of the `select` API command: an int, or a
value of a wrong type (modelled by its string case, the shape a JSON payload
would deliver). -/
inductive Choice
  | cInt (n : Int)
  | cStr (s : String)
deriving DecidableEq, Repr

/-- Outcome of `on_api_command`: normal return, a `flask.abort(code)`, or an
uncaught `TypeError` (raised by `choice+1` inside the abort-message format
when `choice` is a string). -/
inductive ApiResult
  | ok
  | abort (code : Nat)
  | typeError
deriving DecidableEq, Repr

/-- Source `on_api_command("select", data)`.  `canChoose` is the collaborator
response `user_permission.can()`. -/
def on_api_command_select (canChoose : Bool) (choice : Choice) (s : PluginState) :
    PluginState × List Effect × ApiResult :=
  if !canChoose then (s, [], ApiResult.abort 403)
  else if s.active = false then (s, [], ApiResult.abort 409)
  else
    match choice with
    | Choice.cStr _ => (s, [], ApiResult.typeError)
    | Choice.cInt n =>
      if !(n < 5) || !(n ≥ 0) then (s, [], ApiResult.abort 400)
      else
        let r := done_prompt ("T" ++ toString n) { s with mmuTool := PyVal.pyInt n }
        (r.1, r.2, ApiResult.ok)

/-- Value returned by the queuing hook, in OctoPrint's conventions:
`noChange` is Python `return` / `return None` (command proceeds unchanged),
`rewrite` is `return [(cmd,), (tool_cmd,)]`, and `suppress` is `return None,`
(the tuple `(None,)`, which drops the command). -/
inductive GateResult
  | noChange
  | rewrite (cmds : List String)
  | suppress
deriving DecidableEq, Repr

/-- An uncaught Python exception escaping the hook. -/
inductive PyError
  | typeError
deriving DecidableEq, Repr

/-- Source `gcode_queuing_hook(self, comm, phase, cmd, cmd_type, gcode, subcode=None,
tags=None, …)`.  `holdGranted` is the collaborator response to
`self._printer.set_job_on_hold(True)`; the request itself is recorded as an
effect.  `tags = none` models the parameter's declared default `None`, on
which `TIMEOUT_TAG in tags` raises `TypeError`. -/
def gcode_queuing_hook (holdGranted : Bool) (cmd : String)
    (tags : Option (List String)) (s : PluginState) :
    Except PyError (PluginState × List Effect × GateResult) :=
  if !(cmdStartsWith cmd "Tx") && !(cmdStartsWith cmd "M109") then
    Except.ok (s, [], GateResult.noChange)
  else
    match tags with
    | none => Except.error PyError.typeError
    | some ts =>
      if TIMEOUT_TAG ∈ ts then Except.ok (s, [], GateResult.noChange)
      else if cmdStartsWith cmd "M109" then
        match s.selectedFilament, s.filamentChangeTriggered with
        | some tool_cmd, true =>
          Except.ok
            ({ s with mmuTool := PyVal.pyStr tool_cmd
                      selectedFilament := none
                      filamentChangeTriggered := false },
             [], GateResult.rewrite [cmd, tool_cmd])
        | _, _ => Except.ok (s, [], GateResult.noChange)
      else if cmdStartsWith cmd "Tx" then
        if holdGranted then
          let r := show_prompt s
          Except.ok (r.1, Effect.setJobOnHold true :: r.2, GateResult.suppress)
        else
          Except.ok (s, [Effect.setJobOnHold true], GateResult.suppress)
      else Except.ok (s, [], GateResult.suppress)

/-- Source `gcode_received_hook(self, comm, line, …)`: the if/elif substring chain
feeding `_update_nav`, then `return line`. -/
def gcode_received_hook (line : String) (s : PluginState) :
    PluginState × List Effect × String :=
  let r :=
    if strContains "paused for user" line then update_nav "PAUSED_USER" s
    else if strContains "MMU not responding" line then update_nav "ATTENTION" s
    else if strContains "MMU - ENABLED" line then update_nav "OK" s
    else if strContains "MMU starts responding" line then update_nav "OK" s
    else if strContains "Unloading finished" line then update_nav "UNLOADING" s
    else if strContains "MMU can_load" line then update_nav "LOADING" s
    else if strContains "OO succeeded" line then update_nav "LOADED" s
    else (s, [])
  (r.1, r.2, line)

/-- Modelled from the spec's classifier table (§4.1): substring containment in
the fixed priority order `paused for user→PAUSED_USER`,
`MMU not responding→ATTENTION`, `MMU - ENABLED→OK`,
`MMU starts responding→OK`, `Unloading finished→UNLOADING`,
`MMU can_load→LOADING`, `OO succeeded→LOADED`, first match wins, else `none`.
Compared against `gcode_received_hook` for the order/refinement claim. -/
def specClassify (line : String) : Option String :=
  if strContains "paused for user" line then some "PAUSED_USER"
  else if strContains "MMU not responding" line then some "ATTENTION"
  else if strContains "MMU - ENABLED" line then some "OK"
  else if strContains "MMU starts responding" line then some "OK"
  else if strContains "Unloading finished" line then some "UNLOADING"
  else if strContains "MMU can_load" line then some "LOADING"
  else if strContains "OO succeeded" line then some "LOADED"
  else none

/-- Number of UI messages in an effect list. -/
def msgCount (effs : List Effect) : Nat :=
  (effs.filter fun e =>
    match e with
    | Effect.pluginMessage _ => true
    | _ => false).length

/-- Number of "nav" UI messages in an effect list. -/
def navCount (effs : List Effect) : Nat :=
  (effs.filter fun e =>
    match e with
    | Effect.pluginMessage (Msg.nav _ _) => true
    | _ => false).length

/-- Number of "close" UI messages in an effect list. -/
def closeCount (effs : List Effect) : Nat :=
  (effs.filter fun e =>
    match e with
    | Effect.pluginMessage Msg.close => true
    | _ => false).length

/-- Number of `set_job_on_hold(False)` calls in an effect list. -/
def holdReleaseCount (effs : List Effect) : Nat :=
  (effs.filter fun e =>
    match e with
    | Effect.setJobOnHold false => true
    | _ => false).length

example : strContains "MMU - ENABLED" "echo: MMU - ENABLED ok" = true := by decide
example : strContains "MMU - ENABLED" "MMU not responding" = false := by decide
example : cmdStartsWith "M109 S215" "M109" = true := by decide
example : cmdStartsWith "Tx" "M109" = false := by decide

/-!
Statement-level interleaving model for the race between the background
timer thread (`_timeout_prompt`) and the synchronous `on_api_command`
"select" handler.  Each Python statement touching shared state or a
collaborator becomes one atomic action; a thread is a list of actions; an
interleaving is a tagged merge of the two threads.  `Act.checkActive` models
`if self._active is False: return flask.abort(409, …)`: when it reads
`false`, the rest of that thread's actions do not run.  Python's
`Timer.cancel` cannot stop a callback that has already begun, which the
model reflects: `Act.cancelTimer` only clears `timerArmed` and never removes
the timer thread's remaining actions from the merge. -/

/-- One atomic statement of either racing thread. -/
inductive Act
  | checkActive
  | setMmuTool (t : Int)
  | recordChoice (cmd : String)
  | cancelTimer
  | setInactive
  | emitClose
  | releaseHold
  | sendTimeoutTx
deriving DecidableEq, Repr

/-- Execute one action: new state, emitted effects, and whether the thread
continues (`false` only for a failed `checkActive`). -/
def execAct (s : PluginState) : Act → PluginState × List Effect × Bool
  | Act.checkActive => (s, [], s.active)
  | Act.setMmuTool t => ({ s with mmuTool := PyVal.pyInt t }, [], true)
  | Act.recordChoice c =>
      ({ s with selectedFilament := some c, filamentChangeTriggered := true }, [], true)
  | Act.cancelTimer => ({ s with timerArmed := false }, [], true)
  | Act.setInactive => ({ s with active := false }, [], true)
  | Act.emitClose => (s, [Effect.pluginMessage Msg.close], true)
  | Act.releaseHold => (s, [Effect.setJobOnHold false], true)
  | Act.sendTimeoutTx => (s, [Effect.sendCommand "Tx" [TIMEOUT_TAG]], true)

/-- The statements of a permitted, well-typed `on_api_command("select", T t)`
call: the `_active` check, `self.mmuTool = choice`, then `_done_prompt`
(record the selection, set the flag) and `_clean_up_prompt`. -/
def chooseThread (t : Int) : List Act :=
  [Act.checkActive, Act.setMmuTool t, Act.recordChoice ("T" ++ toString t),
   Act.cancelTimer, Act.setInactive, Act.emitClose, Act.releaseHold]

/-- The statements of `_timeout_prompt` once the timer callback has begun:
send the tagged synthetic `Tx`, then `_clean_up_prompt`. -/
def timerThread : List Act :=
  [Act.sendTimeoutTx, Act.cancelTimer, Act.setInactive, Act.emitClose,
   Act.releaseHold]

/-- Run a tagged merge (`false` = choose thread, `true` = timer thread);
`aliveC`/`aliveT` record whether each thread is still running. -/
def execSeq : PluginState → List Effect → Bool → Bool → List (Bool × Act) →
    PluginState × List Effect
  | s, acc, _, _, [] => (s, acc)
  | s, acc, aliveC, aliveT, (tid, a) :: rest =>
    if (if tid then aliveT else aliveC) then
      let r := execAct s a
      if tid then execSeq r.1 (acc ++ r.2.1) aliveC r.2.2 rest
      else execSeq r.1 (acc ++ r.2.1) r.2.2 aliveT rest
    else execSeq s acc aliveC aliveT rest

/-- Predicate `isMergeOf l c t` holds when `l` is an order-preserving interleaving of
the choose-thread actions `c` (tagged `false`) and timer-thread actions `t`
(tagged `true`). -/
def isMergeOf : List (Bool × Act) → List Act → List Act → Bool
  | [], cs, ts => cs.isEmpty && ts.isEmpty
  | (false, a) :: rest, c :: cs, ts => a == c && isMergeOf rest cs ts
  | (false, _) :: _, [], _ => false
  | (true, a) :: rest, cs, t :: ts => a == t && isMergeOf rest cs ts
  | (true, _) :: _, _, [] => false

/-- The racing schedule: `choose(1)` passes its `_active` check, the timer
callback then runs to completion, and `choose(1)` resumes. -/
def raceInterleaving : List (Bool × Act) :=
  (false, Act.checkActive) ::
    (timerThread.map fun a => (true, a)) ++
      ((chooseThread 1).tail.map fun a => (false, a))

/-- A state with an open prompt session (as left by `_show_prompt` after the
gate suppressed a `Tx` and took the job hold). -/
def openPromptState : PluginState :=
  { initialState with active := true, timerArmed := true }

/-- A state holding a pending substitution for tool 2, as left by
`on_api_command` choosing tool 2 on an open session. -/
def pendingState : PluginState :=
  { initialState with
      selectedFilament := some "T2"
      filamentChangeTriggered := true
      mmuTool := PyVal.pyInt 2 }

/-- Sanity link between the two views of `on_api_command`: executing the
choose thread alone from an active state produces exactly the state and
effects of `on_api_command_select`. -/
theorem chooseThread_matches_api (t : Int) (s : PluginState)
    (hact : s.active = true) (h0 : 0 ≤ t) (h5 : t < 5) :
    execSeq s [] true true ((chooseThread t).map fun a => (false, a)) =
      ((on_api_command_select true (Choice.cInt t) s).1,
       (on_api_command_select true (Choice.cInt t) s).2.1) := by
  simp [chooseThread, execSeq, execAct, hact, on_api_command_select,
        done_prompt, clean_up_prompt, h5, h0]

/-- A `"Tx"` command does not start with `"M109"` (the first characters differ). -/
theorem startsTx_not_M109 (cmd : String) (h : cmdStartsWith cmd "Tx" = true) :
    cmdStartsWith cmd "M109" = false := by
  have htx : ("Tx" : String).data = ['T', 'x'] := rfl
  have hm : ("M109" : String).data = ['M', '1', '0', '9'] := rfl
  unfold cmdStartsWith at h ⊢
  rw [htx] at h
  rw [hm]
  cases hd : cmd.data with
  | nil => rw [hd] at h; simp [isPrefixChars] at h
  | cons c rest =>
    rw [hd] at h
    simp [isPrefixChars] at h ⊢
    intro hc
    exact absurd (h.1.trans hc.symm) (by decide)

/-- The state left behind by the M109 rewrite: pending substitution consumed,
`mmuTool` overwritten with the tool command string. -/
def consumedState (toolCmd : String) (s : PluginState) : PluginState :=
  { s with mmuTool := PyVal.pyStr toolCmd
           selectedFilament := none
           filamentChangeTriggered := false }

/-- Claim C1: with a pending substitution recorded by a user choice of tool `t`
(`_selectedFilament = "T"+t` and `_filamentChangeTriggered` set), the next
outbound `M109` command without the timeout tag is rewritten to
`[cmd, "T"+t]`, the pending substitution is cleared and `mmuTool` is updated
to the resolved tool command; a subsequent `M109` with no pending
substitution is passed through unchanged, so exactly one rewrite happens per
resolution. -/
theorem C1_m109_rewrite_once (t : Int) (holdGranted holdGranted2 : Bool)
    (cmd cmd2 : String) (ts ts2 : List String) (s : PluginState)
    (hsel : s.selectedFilament = some ("T" ++ toString t))
    (hflag : s.filamentChangeTriggered = true)
    (hcmd : cmdStartsWith cmd "M109" = true)
    (htag : TIMEOUT_TAG ∉ ts)
    (hcmd2 : cmdStartsWith cmd2 "M109" = true)
    (htag2 : TIMEOUT_TAG ∉ ts2) :
    gcode_queuing_hook holdGranted cmd (some ts) s =
      Except.ok (consumedState ("T" ++ toString t) s, [],
        GateResult.rewrite [cmd, "T" ++ toString t]) ∧
    gcode_queuing_hook holdGranted2 cmd2 (some ts2)
        (consumedState ("T" ++ toString t) s) =
      Except.ok (consumedState ("T" ++ toString t) s, [], GateResult.noChange) := by
  constructor
  · simp [gcode_queuing_hook, hcmd, htag, hsel, hflag, consumedState]
  · simp [gcode_queuing_hook, hcmd2, htag2, consumedState]

/-- Witness for C1 at tool 2, commands `M109 S215` then `M109 S100`. -/
theorem C1_witness :
    gcode_queuing_hook true "M109 S215" (some []) pendingState =
      Except.ok (consumedState "T2" pendingState, [],
        GateResult.rewrite ["M109 S215", "T2"]) ∧
    gcode_queuing_hook true "M109 S100" (some []) (consumedState "T2" pendingState) =
      Except.ok (consumedState "T2" pendingState, [], GateResult.noChange) :=
  C1_m109_rewrite_once 2 true true "M109 S215" "M109 S100" [] [] pendingState
    rfl rfl (by decide) (by decide) (by decide) (by decide)

/-- Claim C3: when the timer of an open prompt session fires with no choice,
`_timeout_prompt` sends exactly one synthetic `"Tx"` tagged with
`TIMEOUT_TAG`, cancels the timer, clears `_active`, sends the close
notification and releases the hold, leaving the pending-substitution fields
(`_selectedFilament`, `_filamentChangeTriggered`) untouched; and the gate
passes any `Tx`/`M109` command carrying the timeout tag through unchanged,
with no state change and no effects. -/
theorem C3_timeout_path (s : PluginState) (hact : s.active = true)
    (holdGranted : Bool) (cmd : String) (ts : List String) (s2 : PluginState)
    (hcmd : cmdStartsWith cmd "Tx" = true ∨ cmdStartsWith cmd "M109" = true)
    (htag : TIMEOUT_TAG ∈ ts) :
    timeout_prompt s =
      ({ s with active := false, timerArmed := false },
       [Effect.sendCommand "Tx" [TIMEOUT_TAG],
        Effect.pluginMessage Msg.close, Effect.setJobOnHold false]) ∧
    (timeout_prompt s).1.selectedFilament = s.selectedFilament ∧
    (timeout_prompt s).1.filamentChangeTriggered = s.filamentChangeTriggered ∧
    gcode_queuing_hook holdGranted cmd (some ts) s2 =
      Except.ok (s2, [], GateResult.noChange) := by
  refine ⟨by simp [timeout_prompt, clean_up_prompt], rfl, rfl, ?_⟩
  rcases hcmd with h | h <;> simp [gcode_queuing_hook, h, htag]

/-- Witness for C3: open session, the synthetic tagged `Tx` presented back
to the gate. -/
theorem C3_witness :
    timeout_prompt openPromptState =
      ({ openPromptState with active := false, timerArmed := false },
       [Effect.sendCommand "Tx" [TIMEOUT_TAG],
        Effect.pluginMessage Msg.close, Effect.setJobOnHold false]) ∧
    (timeout_prompt openPromptState).1.selectedFilament =
      openPromptState.selectedFilament ∧
    (timeout_prompt openPromptState).1.filamentChangeTriggered =
      openPromptState.filamentChangeTriggered ∧
    gcode_queuing_hook true "Tx" (some [TIMEOUT_TAG]) initialState =
      Except.ok (initialState, [], GateResult.noChange) :=
  C3_timeout_path openPromptState rfl true "Tx" [TIMEOUT_TAG] initialState
    (Or.inl (by decide)) (by decide)

/-- Claim C5: the received-line hook classifies by testing the seven spec
substrings in the spec's fixed priority order, first match winning and
driving `_update_nav`; a line matching no pattern triggers no tracker
update, and the line itself is always returned unmodified. -/
theorem C5_classifier_order (line : String) (s : PluginState) :
    gcode_received_hook line s =
      match specClassify line with
      | none => (s, [], line)
      | some st => ((update_nav st s).1, (update_nav st s).2, line) := by
  simp only [gcode_received_hook, specClassify]
  split_ifs <;> rfl

/-- Claim C7, counterexample: on a `Tx` command with the hold denied, the gate
returns the suppression result (`return None,` — the command is dropped),
not the unchanged pass-through the claim states. -/
theorem C7_counterexample :
    gcode_queuing_hook false "Tx" (some []) initialState =
      Except.ok (initialState, [Effect.setJobOnHold true], GateResult.suppress) ∧
    GateResult.suppress ≠ GateResult.noChange :=
  ⟨rfl, by decide⟩

/-- Claim C7, amended: when a `Tx` command (without the timeout tag) arrives
and the hold request is denied, no prompt session is opened (state
unchanged, no timer armed, no "show" message) and the gate suppresses
(drops) the command, its only effect being the hold request itself. -/
theorem C7_hold_denied (cmd : String) (ts : List String) (s : PluginState)
    (hcmd : cmdStartsWith cmd "Tx" = true)
    (htag : TIMEOUT_TAG ∉ ts) :
    gcode_queuing_hook false cmd (some ts) s =
      Except.ok (s, [Effect.setJobOnHold true], GateResult.suppress) := by
  have hm := startsTx_not_M109 cmd hcmd
  simp [gcode_queuing_hook, hcmd, hm, htag]

/-- Witness for the amended C7 at `cmd="Tx"` on the initial state. -/
theorem C7_witness :
    gcode_queuing_hook false "Tx" (some []) initialState =
      Except.ok (initialState, [Effect.setJobOnHold true], GateResult.suppress) :=
  C7_hold_denied "Tx" [] initialState (by decide) (by decide)

/-- Claim C10: for every command starting with `Tx` or `M109`, the hook reaches
the membership test `TIMEOUT_TAG in tags` before any state-dependent
decision: with `tags = none` (the declared default `None`) it raises
`TypeError` uniformly in the plugin state and hold response, while with any
non-`None` tag collection it always returns normally. -/
theorem C10_tags_none_raises (cmd : String)
    (hcmd : cmdStartsWith cmd "Tx" = true ∨ cmdStartsWith cmd "M109" = true) :
    (∀ (holdGranted : Bool) (s : PluginState),
        gcode_queuing_hook holdGranted cmd none s =
          Except.error PyError.typeError) ∧
    (∀ (holdGranted : Bool) (ts : List String) (s : PluginState),
        ∃ out, gcode_queuing_hook holdGranted cmd (some ts) s =
          Except.ok out) := by
  constructor
  · intro holdGranted s
    rcases hcmd with h | h <;> simp [gcode_queuing_hook, h]
  · intro holdGranted ts s
    unfold gcode_queuing_hook
    repeat' split
    all_goals first
      | exact ⟨_, rfl⟩
      | simp_all

/-- Witness for C10: a bare `Tx` with the default `tags=None` raises, and
with an empty tag set it returns normally. -/
theorem C10_witness :
    (∀ (holdGranted : Bool) (s : PluginState),
        gcode_queuing_hook holdGranted "Tx" none s =
          Except.error PyError.typeError) ∧
    (∀ (holdGranted : Bool) (ts : List String) (s : PluginState),
        ∃ out, gcode_queuing_hook holdGranted "Tx" (some ts) s =
          Except.ok out) :=
  C10_tags_none_raises "Tx" (Or.inl (by decide))

/-- Values of `data["choice"]` rejected by `on_api_command`: any non-int, and
ints outside `[0,4]` (the source test `not choice < 5 or not choice >= 0`). -/
def invalidChoice : Choice → Bool
  | Choice.cInt n => !(n < 5) || !(n ≥ 0)
  | Choice.cStr _ => true

/-- Claim C4: a `select` call is rejected — the state is returned unchanged
(every status, tool, session and pending-substitution field), no effect is
emitted (no UI notification, no hold release), and the result is a
caller-visible failure rather than `ok` — whenever the caller lacks the
permission, no session is active, or the choice is invalid (out of `[0,4]`
or of a wrong type). -/
theorem C4_select_rejected (perm : Bool) (choice : Choice) (s : PluginState)
    (h : perm = false ∨ s.active = false ∨ invalidChoice choice = true) :
    (on_api_command_select perm choice s).1 = s ∧
    (on_api_command_select perm choice s).2.1 = [] ∧
    (on_api_command_select perm choice s).2.2 ≠ ApiResult.ok := by
  by_cases hp : perm
  · by_cases ha : s.active
    · have hinv : invalidChoice choice = true := by
        rcases h with h | h | h
        · rw [hp] at h; cases h
        · rw [ha] at h; cases h
        · exact h
      cases choice with
      | cStr str => simp [on_api_command_select, hp, ha]
      | cInt n =>
        simp only [invalidChoice] at hinv
        simp [on_api_command_select, hp, ha, hinv]
    · have ha' : s.active = false := by simp [ha]
      simp [on_api_command_select, hp, ha']
  · have hp' : perm = false := by simp [hp]
    simp [on_api_command_select, hp']

/-- Witness for C4: permitted caller, open session, out-of-range choice 7. -/
theorem C4_witness :
    (on_api_command_select true (Choice.cInt 7) openPromptState).1 =
      openPromptState ∧
    (on_api_command_select true (Choice.cInt 7) openPromptState).2.1 = [] ∧
    (on_api_command_select true (Choice.cInt 7) openPromptState).2.2 ≠
      ApiResult.ok :=
  C4_select_rejected true (Choice.cInt 7) openPromptState
    (Or.inr (Or.inr (by decide)))

/-- Claim C8: `_update_nav` with an unchanged status is a no-op — no state
change, no persistence request, no UI message — and a second call with the
same status right after a first is always a no-op, so two consecutive calls
with the same status send at most one UI message. -/
theorem C8_update_nav_idempotent (st : String) (s : PluginState) :
    (st = s.mmuState → update_nav st s = (s, [])) ∧
    update_nav st (update_nav st s).1 = ((update_nav st s).1, []) ∧
    msgCount (update_nav st s).2 +
      msgCount (update_nav st (update_nav st s).1).2 ≤ 1 := by
  by_cases h : st = s.mmuState <;>
    simp [update_nav, h, msgCount]

/-- Witness for C8 at the startup status `OK`. -/
theorem C8_witness :
    update_nav "OK" initialState = (initialState, []) :=
  (C8_update_nav_idempotent "OK" initialState).1 rfl

/-- Claim C6, code divergence: after the gate rewrites `M109 S215` using the
pending substitution `T2`, its effect list is empty — no `_update_nav` call,
no persistence request and no UI message of any kind (in particular no
"nav") — although the rewrite changed `mmuTool`. -/
theorem C6_no_tracker_refresh :
    gcode_queuing_hook true "M109 S215" (some []) pendingState =
      Except.ok (consumedState "T2" pendingState, [],
        GateResult.rewrite ["M109 S215", "T2"]) ∧
    consumedState "T2" pendingState ≠ pendingState :=
  ⟨rfl, by decide⟩

/-- The state after `choose(1)` resolves the open prompt session: tool 1
recorded by the API handler, pending substitution `"T1"` armed, session
closed. -/
def chosenState : PluginState :=
  { initialState with
      mmuTool := PyVal.pyInt 1
      selectedFilament := some "T1"
      filamentChangeTriggered := true }

/-- Claim C2, counterexample: running the spec scenario
`["MMU - ENABLED", Tx, choose(1), M109 S215]` from the initial state leaves
`mmuTool` equal to the string `"T1"` (the tool command assigned by the
rewrite), which is not the integer tool index `1` the claim states. -/
theorem C2_counterexample :
    gcode_received_hook "MMU - ENABLED" initialState =
      (initialState, [], "MMU - ENABLED") ∧
    gcode_queuing_hook true "Tx" (some []) initialState =
      Except.ok (openPromptState,
        [Effect.setJobOnHold true, Effect.pluginMessage Msg.show],
        GateResult.suppress) ∧
    on_api_command_select true (Choice.cInt 1) openPromptState =
      (chosenState,
       [Effect.pluginMessage Msg.close, Effect.setJobOnHold false],
       ApiResult.ok) ∧
    gcode_queuing_hook true "M109 S215" (some []) chosenState =
      Except.ok (consumedState "T1" chosenState, [],
        GateResult.rewrite ["M109 S215", "T1"]) ∧
    (consumedState "T1" chosenState).mmuTool ≠ PyVal.pyInt 1 :=
  ⟨rfl, rfl, rfl, rfl, by decide⟩

/-- Claim C2, amended: the scenario `["MMU - ENABLED", Tx, choose(1),
M109 S215]` from the initial state gives: a no-op tracker update (status
already `OK`, no effects), an opened prompt session (hold taken, "show"
sent, `Tx` suppressed), resolution with tool 1 and session close ("close"
sent, hold released, pending substitution `"T1"` armed), and a rewrite of
the final `M109` into the outbound stream `[M109 S215, T1]`; the final
`mmuTool` is the tool command string `"T1"`. -/
theorem C2_scenario :
    gcode_received_hook "MMU - ENABLED" initialState =
      (initialState, [], "MMU - ENABLED") ∧
    gcode_queuing_hook true "Tx" (some []) initialState =
      Except.ok (openPromptState,
        [Effect.setJobOnHold true, Effect.pluginMessage Msg.show],
        GateResult.suppress) ∧
    on_api_command_select true (Choice.cInt 1) openPromptState =
      (chosenState,
       [Effect.pluginMessage Msg.close, Effect.setJobOnHold false],
       ApiResult.ok) ∧
    gcode_queuing_hook true "M109 S215" (some []) chosenState =
      Except.ok (consumedState "T1" chosenState, [],
        GateResult.rewrite ["M109 S215", "T1"]) ∧
    (consumedState "T1" chosenState).mmuTool = PyVal.pyStr "T1" :=
  ⟨rfl, rfl, rfl, rfl, rfl⟩

/-- Claim C9, code divergence: the interleaving in which `choose(1)` passes
its `_active` check, the timeout callback then runs to completion, and
`choose(1)` resumes, is a valid merge of the two threads' statements, and
executing it from the open-session state emits the "close" notification
twice and releases the hold twice — the clean-up is not mutually exclusive
and does not run exactly once. -/
theorem C9_cleanup_race :
    isMergeOf raceInterleaving (chooseThread 1) timerThread = true ∧
    closeCount (execSeq openPromptState [] true true raceInterleaving).2 = 2 ∧
    holdReleaseCount
      (execSeq openPromptState [] true true raceInterleaving).2 = 2 := by
  decide
